import Mathlib

/-!
Shallow embedding of the claim-redemption core of the self-claim-link
service: the buyer-facing claim endpoint (`src/app/api/claim/route.ts`,
`POST`) and the admin order-management endpoints
(`src/app/api/orders/route.ts`, `POST` and `PUT`), over a relational
state mirroring the PostgreSQL schema in `src/lib/database.ts`
(tables `orders`, `products`, `order_products`, `settings`).

Timestamps are abstract integers; `addDays` mirrors the `date-fns`
helper used by the routes, and `isAfter` is the strict comparison the
expiration check performs.
-/

namespace SelfClaim

/-- A row of the `products` table. -/
structure Product where
  id : Nat
  name : String
  description : String
  download_link : String
  image_url : String
  deriving DecidableEq

/-- A row of the `orders` table (schema defaults: `claim_status`
`'available'`, `claim_count` 0, `one_time_use` true). -/
structure Order where
  id : Nat
  order_id : String
  claim_status : String
  claim_timestamp : Option Int
  claim_count : Nat
  expiration_date : Option Int
  one_time_use : Bool
  created_by : Option String
  deriving DecidableEq

/-- A row of the `order_products` join table. -/
structure OrderProduct where
  order_id : Nat
  product_id : Nat
  deriving DecidableEq

/-- A row of the `settings` table (global policy defaults). -/
structure Setting where
  key : String
  value : String
  deriving DecidableEq

/-- The database state shared by all routes. -/
structure DB where
  orders : List Order
  products : List Product
  order_products : List OrderProduct
  settings : List Setting
  deriving DecidableEq

/-- The projection of a product returned in the claim response body
(`id`, `name`, `description`, `image_url` -- no download link). -/
structure ProductView where
  id : Nat
  name : String
  description : String
  image_url : String
  deriving DecidableEq

/-- The JSON body and HTTP status produced by the claim endpoint. -/
structure ClaimResponse where
  success : Bool
  message : String
  status : Nat
  products : Option (List ProductView)
  download_links : Option (List String)
  claim_count : Option Nat
  deriving DecidableEq

/-- Mirrors `date-fns` `addDays` on the abstract integer timeline. -/
def addDays (t : Int) (d : Int) : Int := t + d

/-- Mirrors `date-fns` `isAfter a b` : `a` is strictly later than `b`. -/
def isAfter (a b : Int) : Bool := b < a

/-- The lookup `SELECT o.* FROM orders o WHERE o.order_id = ?`. -/
def findOrder (db : DB) (orderId : String) : Option Order :=
  db.orders.find? (fun o => o.order_id == orderId)

/-- The join `SELECT p.* FROM products p JOIN order_products op ON
p.id = op.product_id WHERE op.order_id = ?`. -/
def orderProducts (db : DB) (oid : Nat) : List Product :=
  (db.order_products.filter (fun op => op.order_id == oid)).filterMap
    (fun op => db.products.find? (fun p => p.id == op.product_id))

/-- The field projection applied by `products.map(...)` in the claim
route's success response. -/
def productView (p : Product) : ProductView :=
  { id := p.id, name := p.name, description := p.description,
    image_url := p.image_url }

/-- A `{ success: false, message }` JSON response with its HTTP status. -/
def rejectResponse (msg : String) (st : Nat) : ClaimResponse :=
  { success := false, message := msg, status := st,
    products := none, download_links := none, claim_count := none }

/-- The success message template of the claim route. -/
def successMessage (n : Nat) : String :=
  "Products claimed successfully! (Claimed " ++ toString n ++ " time"
    ++ (if 1 < n then "s" else "") ++ ")"

/-- The success JSON response of the claim route. -/
def successResponse (prods : List Product) (n : Nat) : ClaimResponse :=
  { success := true, message := successMessage n, status := 200,
    products := some (prods.map productView),
    download_links := some (prods.map Product.download_link),
    claim_count := some n }

/-- The claim route split at its single write: either an early-return
rejection, or an accepted claim carrying the pending row update
(products read, new `claim_status`, new `claim_count`). -/
inductive ClaimDecision where
  | reject (resp : ClaimResponse)
  | accept (prods : List Product) (newStatus : String) (newCount : Nat)
  deriving DecidableEq

/-- The guard `order.expiration_date && isAfter(new Date(), new
Date(order.expiration_date))`. -/
def isExpired (o : Order) (now : Int) : Bool :=
  match o.expiration_date with
  | some e => isAfter now e
  | none => false

/-- The read-and-check phase of `POST /api/claim`: request validation,
order lookup, expiration check, one-time-use check, product load, in
source order. -/
def claimCheck (db : DB) (now : Int) (orderId : String) : ClaimDecision :=
  if orderId = "" then
    .reject (rejectResponse "Order ID is required" 400)
  else
    match findOrder db orderId with
    | none => .reject (rejectResponse "Order not found" 404)
    | some o =>
      if isExpired o now then
        .reject (rejectResponse "This order has expired" 400)
      else if o.one_time_use ∧ 1 ≤ o.claim_count then
        .reject (rejectResponse
          "This order has already been claimed (one-time use only)" 400)
      else if (orderProducts db o.id).length = 0 then
        .reject (rejectResponse "No products found for this order" 404)
      else
        .accept (orderProducts db o.id)
          (if o.one_time_use then "claimed" else "available")
          (o.claim_count + 1)

/-- The response sent for a decision. -/
def decisionResponse : ClaimDecision → ClaimResponse
  | .reject r => r
  | .accept prods _ c => successResponse prods c

/-- The row update performed by `UPDATE orders SET claim_status = ?,
claim_timestamp = CURRENT_TIMESTAMP, claim_count = ? WHERE order_id = ?`. -/
def updateOrderRow (orderId : String) (st : String) (now : Int) (c : Nat)
    (o : Order) : Order :=
  if o.order_id = orderId then
    { o with
      claim_status := st
      claim_timestamp := some now
      claim_count := c }
  else o

/-- The write phase of `POST /api/claim`: a rejection writes nothing, an
accepted claim runs the unconditional `UPDATE`. -/
def applyDecision (db : DB) (now : Int) (orderId : String) :
    ClaimDecision → DB
  | .reject _ => db
  | .accept _ st c =>
      { db with orders := db.orders.map (updateOrderRow orderId st now c) }

/-- One sequential execution of `POST /api/claim`: the check phase
immediately followed by its write phase. -/
def claimPOST (db : DB) (now : Int) (orderId : String) :
    ClaimResponse × DB :=
  let d := claimCheck db now orderId
  (decisionResponse d, applyDecision db now orderId d)

/-- Two concurrent executions of `POST /api/claim` interleaved so that
both `SELECT`s complete before either `UPDATE` runs -- a schedule the
route permits because its eligibility check and its `UPDATE` are
separate statements with no transaction and no conditional `WHERE`
guard.  Returns both responses and the final state. -/
def claimRace (db : DB) (now : Int) (orderId : String) :
    ClaimResponse × ClaimResponse × DB :=
  let d1 := claimCheck db now orderId
  let d2 := claimCheck db now orderId
  (decisionResponse d1, decisionResponse d2,
    applyDecision (applyDecision db now orderId d1) now orderId d2)

/-- N sequential executions of `POST /api/claim` against the same
identifier, collecting the responses. -/
def claimSeq (db : DB) (now : Int) (orderId : String) :
    Nat → List ClaimResponse × DB
  | 0 => ([], db)
  | Nat.succ n =>
    let p := claimPOST db now orderId
    let rest := claimSeq p.2 now orderId n
    (p.1 :: rest.1, rest.2)

/-- The outcome of an order-management request: a 400 validation
error, a 404 lookup error, a 201 created order, a 200 updated order, or
the 500 produced when a storage statement throws (for the `PUT`, the
`UNIQUE(order_id)` constraint). -/
inductive OrdersResult where
  | badRequest (error : String)
  | notFoundErr (error : String)
  | created (o : Order)
  | updated (o : Order)
  | serverError
  deriving DecidableEq

/-- The JSON body of `POST /api/orders`.  `none` models an absent (or
`undefined`) field; a present `expiration_days` of `0` is falsy in the
route's truthiness test, exactly like absence. -/
structure OrderCreateBody where
  order_id : String
  product_ids : List Nat
  expiration_days : Option Int
  one_time_use : Option Bool
  created_by : Option String
  deriving DecidableEq

/-- The JSON body of `PUT /api/orders` (the create body plus the
internal row id, minus `created_by`). -/
structure OrderUpdateBody where
  id : Nat
  order_id : String
  product_ids : List Nat
  expiration_days : Option Int
  one_time_use : Option Bool
  deriving DecidableEq

/-- The expression `expiration_days ? addDays(new Date(),
expiration_days).toISOString() : null` shared by both routes: absent or
zero (falsy) yields no expiration. -/
def expirationOf (now : Int) : Option Int → Option Int
  | some d => if d = 0 then none else some (addDays now d)
  | none => none

/-- The per-id existence probe `SELECT id FROM products WHERE id = $1`. -/
def productExists (db : DB) (pid : Nat) : Bool :=
  (db.products.find? (fun p => p.id == pid)).isSome

/-- The verification loop over `product_ids`: the first id with no
matching product row, if any. -/
def firstMissingProduct (db : DB) (pids : List Nat) : Option Nat :=
  pids.find? (fun pid => !(productExists db pid))

/-- The `SERIAL` key generator of the `orders` table: one more than the
largest id in use. -/
def nextOrderId (db : DB) : Nat :=
  db.orders.foldr (fun o m => max o.id m) 0 + 1

/-- The row the `INSERT INTO orders` of `POST /api/orders` produces
(schema defaults `claim_status = 'available'`, `claim_count = 0`, no
`claim_timestamp`; `one_time_use ?? true`). -/
def newOrderOf (db : DB) (now : Int) (b : OrderCreateBody) : Order :=
  { id := nextOrderId db
    order_id := b.order_id
    claim_status := "available"
    claim_timestamp := none
    claim_count := 0
    expiration_date := expirationOf now b.expiration_days
    one_time_use := b.one_time_use.getD true
    created_by := b.created_by }

/-- `POST /api/orders`: request validation, duplicate-identifier check,
product-existence checks, then the `INSERT` of the new order and its
product associations. -/
def createOrder (db : DB) (now : Int) (b : OrderCreateBody) :
    OrdersResult × DB :=
  if b.order_id = "" ∨ b.product_ids.isEmpty then
    (.badRequest "Order ID and at least one product are required", db)
  else if (db.orders.find? (fun o => o.order_id == b.order_id)).isSome then
    (.badRequest "Order ID already exists", db)
  else
    match firstMissingProduct db b.product_ids with
    | some pid =>
      (.notFoundErr ("Product with ID " ++ toString pid ++ " not found"), db)
    | none =>
      (.created (newOrderOf db now b),
        { db with
          orders := db.orders ++ [newOrderOf db now b]
          order_products := db.order_products ++
            b.product_ids.map (fun pid =>
              OrderProduct.mk (newOrderOf db now b).id pid) })

/-- The row update performed by the `PUT` route's `UPDATE orders SET
order_id = $1, expiration_date = $2, one_time_use = $3, claim_count =
$4 WHERE id = $5`. -/
def putUpdateRow (b : OrderUpdateBody) (newExp : Option Int)
    (newFlag : Bool) (newCount : Nat) (o : Order) : Order :=
  if o.id = b.id then
    { o with
      order_id := b.order_id
      expiration_date := newExp
      one_time_use := newFlag
      claim_count := newCount }
  else o

/-- The `newClaimCount` computation of the `PUT` route: reset to 0 only
when the stored flag is false and the request's raw `one_time_use`
value is truthy (i.e. explicitly `true`; an absent field is falsy even
though it is stored as true via `?? true`). -/
def putNewCount (b : OrderUpdateBody) (existing : Order) : Nat :=
  if existing.one_time_use = false ∧ b.one_time_use = some true then 0
  else existing.claim_count

/-- Whether the `PUT` route's `UPDATE` would violate the orders table's
`UNIQUE(order_id)` constraint: some other row already holds the
requested identifier. -/
def putCollision (db : DB) (b : OrderUpdateBody) : Bool :=
  db.orders.any (fun o => o.id != b.id && o.order_id == b.order_id)

/-- The edited row as the `PUT` route re-reads and returns it. -/
def putUpdatedOrder (now : Int) (b : OrderUpdateBody) (existing : Order) :
    Order :=
  { existing with
    order_id := b.order_id
    expiration_date := expirationOf now b.expiration_days
    one_time_use := b.one_time_use.getD true
    claim_count := putNewCount b existing }

/-- `PUT /api/orders`: request validation, order lookup by internal id,
product-existence checks, then the `UPDATE` (which fails with a unique
violation, surfaced as a 500 with no mutation, when another row already
holds the requested `order_id`) and the delete-then-insert replacement
of the product associations. -/
def putOrder (db : DB) (now : Int) (b : OrderUpdateBody) :
    OrdersResult × DB :=
  if b.id = 0 ∨ b.order_id = "" ∨ b.product_ids.isEmpty then
    (.badRequest "ID, order ID and at least one product are required", db)
  else
    match db.orders.find? (fun o => o.id == b.id) with
    | none => (.notFoundErr "Order not found", db)
    | some existing =>
      match firstMissingProduct db b.product_ids with
      | some pid =>
        (.notFoundErr ("Product with ID " ++ toString pid ++ " not found"), db)
      | none =>
        if putCollision db b then (.serverError, db)
        else
          (.updated (putUpdatedOrder now b existing),
            { db with
              orders := db.orders.map (putUpdateRow b
                (expirationOf now b.expiration_days)
                (b.one_time_use.getD true) (putNewCount b existing))
              order_products :=
                (db.order_products.filter (fun op => op.order_id != b.id))
                  ++ b.product_ids.map (fun pid => OrderProduct.mk b.id pid) })

/-- Every rejection of the claim route's check phase has `success:
false`, carries no product or link payload, and is one of the five
fixed message/status pairs of the route. -/
theorem claimCheck_reject_spec (db : DB) (now : Int) (orderId : String)
    (r : ClaimResponse) (h : claimCheck db now orderId = .reject r) :
    r.success = false ∧ r.products = none ∧ r.download_links = none ∧
    ((r.message = "Order ID is required" ∧ r.status = 400) ∨
     (r.message = "Order not found" ∧ r.status = 404) ∨
     (r.message = "This order has expired" ∧ r.status = 400) ∨
     (r.message = "This order has already been claimed (one-time use only)"
        ∧ r.status = 400) ∨
     (r.message = "No products found for this order" ∧ r.status = 404)) := by
  unfold claimCheck at h
  split at h
  · cases h
    simp [rejectResponse]
  · split at h
    · cases h
      simp [rejectResponse]
    · split at h
      · cases h
        simp [rejectResponse]
      · split at h
        · cases h
          simp [rejectResponse]
        · split at h
          · cases h
            simp [rejectResponse]
          · cases h

/-- An accepted claim in the check phase comes from a found, eligible
order: the pending update carries that order's products, its status
rewrite, and its incremented claim count. -/
theorem claimCheck_accept_spec (db : DB) (now : Int) (orderId : String)
    (prods : List Product) (st : String) (c : Nat)
    (h : claimCheck db now orderId = .accept prods st c) :
    ∃ o, findOrder db orderId = some o ∧
      prods = orderProducts db o.id ∧ prods.length ≠ 0 ∧
      st = (if o.one_time_use then "claimed" else "available") ∧
      c = o.claim_count + 1 := by
  unfold claimCheck at h
  split at h
  · cases h
  · split at h
    · cases h
    · rename_i o hfind
      split at h
      · cases h
      · split at h
        · cases h
        · split at h
          · cases h
          · rename_i hlen
            cases h
            exact ⟨o, hfind, rfl, hlen, rfl, rfl⟩

/-- Concrete product for the race scenario. -/
def raceProduct : Product := ⟨10, "Widget", "d", "https://x/y", "img"⟩

/-- Concrete fresh one-time-use order for the race scenario. -/
def raceOrder : Order := ⟨1, "R", "available", none, 0, none, true, none⟩

/-- Concrete state for the race scenario. -/
def raceDB : DB := ⟨[raceOrder], [raceProduct], [⟨1, 10⟩], []⟩

/-- C1: the route's eligibility check and its claim-count write are a
plain read-then-write pair (separate unguarded statements), so the
interleaving in which both concurrent attempts read before either
writes hands `SUCCESS` to both callers on a fresh one-time-use order
(final `claim_count` 1), instead of one `SUCCESS` and one
`ALREADY_CLAIMED`; sequentially the second call is correctly
rejected. -/
theorem claim_race_double_success :
    (claimRace raceDB 0 "R").1.success = true ∧
    (claimRace raceDB 0 "R").2.1.success = true ∧
    (findOrder (claimRace raceDB 0 "R").2.2 "R").map Order.claim_count
      = some 1 ∧
    (claimPOST ((claimPOST raceDB 0 "R").2) 0 "R").1 =
      rejectResponse
        "This order has already been claimed (one-time use only)" 400 := by
  decide

/-- C2: a claim attempt with any non-success outcome leaves the store
untouched, and a successful attempt performs exactly the single row
update of the matched order (all other tables and rows unchanged). -/
theorem claim_rejection_no_mutation (db : DB) (now : Int)
    (orderId : String) :
    ((claimPOST db now orderId).1.success = false →
      (claimPOST db now orderId).2 = db) ∧
    ((claimPOST db now orderId).1.success = true →
      ∃ o, findOrder db orderId = some o ∧
        (claimPOST db now orderId).2 =
          { db with orders := db.orders.map (updateOrderRow orderId
              (if o.one_time_use then "claimed" else "available") now
              (o.claim_count + 1)) } ∧
        (claimPOST db now orderId).2.products = db.products ∧
        (claimPOST db now orderId).2.order_products = db.order_products ∧
        (claimPOST db now orderId).2.settings = db.settings) := by
  rcases hd : claimCheck db now orderId with r | ⟨prods, st, c⟩
  · have hr := claimCheck_reject_spec db now orderId r hd
    constructor
    · intro _
      simp [claimPOST, hd, applyDecision]
    · intro hs
      simp [claimPOST, hd, decisionResponse] at hs
      rw [hs] at hr
      simp at hr
  · obtain ⟨o, hfind, hprods, _, hst, hc⟩ :=
      claimCheck_accept_spec db now orderId prods st c hd
    constructor
    · intro hs
      simp [claimPOST, hd, decisionResponse, successResponse] at hs
    · intro _
      refine ⟨o, hfind, ?_, ?_, ?_, ?_⟩ <;>
        simp [claimPOST, hd, applyDecision, hst, hc]

/-- Concrete state for the rejection-purity witness: a one-time-use
order already claimed once. -/
def purityDB : DB :=
  ⟨[⟨1, "W", "claimed", some 1, 1, none, true, none⟩],
   [⟨10, "Widget", "d", "https://x/y", "img"⟩], [⟨1, 10⟩], []⟩

/-- Witness for C2: the rejected re-claim of an already-claimed
one-time-use order leaves the store exactly as it was. -/
theorem claim_rejection_no_mutation_witness :
    (claimPOST purityDB 0 "W").2 = purityDB :=
  (claim_rejection_no_mutation purityDB 0 "W").1 (by decide)

/-- C3: whenever the matched order has an expiration instant strictly
in the past, the claim route answers `EXPIRED` and writes nothing --
whatever the order's claim count and one-time-use flag, since the
expiration guard runs before the one-time-use guard. -/
theorem claim_expired_precedence (db : DB) (now : Int) (orderId : String)
    (o : Order) (e : Int) (hne : orderId ≠ "")
    (hfind : findOrder db orderId = some o)
    (hexp : o.expiration_date = some e) (hpast : e < now) :
    (claimPOST db now orderId).1 =
      rejectResponse "This order has expired" 400 ∧
    (claimPOST db now orderId).2 = db := by
  have hexp2 : isExpired o now = true := by
    unfold isExpired isAfter
    rw [hexp]
    simpa using hpast
  have hcheck : claimCheck db now orderId =
      .reject (rejectResponse "This order has expired" 400) := by
    simp [claimCheck, hne, hfind, hexp2]
  simp [claimPOST, hcheck, decisionResponse, applyDecision]

/-- Concrete state for the expiration witness: an expired,
already-claimed one-time-use order. -/
def expiredDB : DB :=
  ⟨[⟨1, "E", "claimed", none, 3, some 0, true, none⟩],
   [⟨10, "Widget", "d", "https://x/y", "img"⟩], [⟨1, 10⟩], []⟩

/-- Witness for C3: the expired, thrice-claimed one-time-use order is
reported as expired, not as already claimed. -/
theorem claim_expired_precedence_witness :
    (claimPOST expiredDB 5 "E").1 =
      rejectResponse "This order has expired" 400 ∧
    (claimPOST expiredDB 5 "E").2 = expiredDB :=
  claim_expired_precedence expiredDB 5 "E"
    ⟨1, "E", "claimed", none, 3, some 0, true, none⟩ 0
    (by decide) (by decide) (by decide) (by decide)

/-- C5: every success response is built from one non-empty product
list: the `products` payload is its field projection, the
`download_links` payload is its link projection, both payloads have the
same non-zero length, and the link at each index is the download link
of the product at the same index. -/
theorem claim_success_links_align (db : DB) (now : Int) (orderId : String)
    (h : (claimPOST db now orderId).1.success = true) :
    ∃ prods : List Product, prods ≠ [] ∧
      (claimPOST db now orderId).1.products = some (prods.map productView) ∧
      (claimPOST db now orderId).1.download_links =
        some (prods.map Product.download_link) ∧
      (prods.map Product.download_link).length =
        (prods.map productView).length ∧
      (prods.map Product.download_link).length ≠ 0 ∧
      ∀ i : Nat, (prods.map Product.download_link)[i]? =
        (prods[i]?).map Product.download_link := by
  rcases hd : claimCheck db now orderId with r | ⟨prods, st, c⟩
  · have hr := claimCheck_reject_spec db now orderId r hd
    simp [claimPOST, hd, decisionResponse] at h
    simp [h] at hr
  · obtain ⟨o, hfind, hprods, hlen, hst, hc⟩ :=
      claimCheck_accept_spec db now orderId prods st c hd
    refine ⟨prods, ?_, ?_, ?_, ?_, ?_, ?_⟩
    · intro hnil
      exact hlen (by simp [hnil])
    · simp [claimPOST, hd, decisionResponse, successResponse]
    · simp [claimPOST, hd, decisionResponse, successResponse]
    · simp [List.length_map]
    · simpa [List.length_map] using hlen
    · intro i
      exact List.getElem?_map Product.download_link prods i

/-- Concrete state for the alignment witness: a multi-use order
bundling two products with distinct links. -/
def alignDB : DB :=
  ⟨[⟨1, "S", "available", none, 0, none, false, none⟩],
   [⟨10, "W1", "d1", "https://x/1", "i1"⟩,
    ⟨11, "W2", "d2", "https://x/2", "i2"⟩],
   [⟨1, 10⟩, ⟨1, 11⟩], []⟩

/-- Witness for C5: the two-product order's success response aligns
links with products index by index. -/
theorem claim_success_links_align_witness :
    ∃ prods : List Product, prods ≠ [] ∧
      (claimPOST alignDB 0 "S").1.products = some (prods.map productView) ∧
      (claimPOST alignDB 0 "S").1.download_links =
        some (prods.map Product.download_link) ∧
      (prods.map Product.download_link).length =
        (prods.map productView).length ∧
      (prods.map Product.download_link).length ≠ 0 ∧
      ∀ i : Nat, (prods.map Product.download_link)[i]? =
        (prods[i]?).map Product.download_link :=
  claim_success_links_align alignDB 0 "S" (by decide)

/-- Concrete state for the missing-products outcome: a valid,
unexpired, unclaimed order with no product associations. -/
def noProductsDB : DB :=
  ⟨[⟨1, "N", "available", none, 0, none, true, none⟩], [], [], []⟩

/-- Counterexample to C6 as stated: the `NO_PRODUCTS` outcome is
returned with HTTP status 404, not the claimed 400. -/
theorem claim_no_products_maps_404 :
    (claimPOST noProductsDB 0 "N").1.message =
      "No products found for this order" ∧
    (claimPOST noProductsDB 0 "N").1.status = 404 ∧
    ¬ (claimPOST noProductsDB 0 "N").1.status = 400 := by
  decide

/-- C6 (amended): `NOT_FOUND` and `NO_PRODUCTS` map to HTTP 404,
`EXPIRED` and `ALREADY_CLAIMED` (and a missing order id) map to 400;
download links and product payloads appear only on success (HTTP 200),
and the five rejection messages are pairwise distinct. -/
theorem claim_http_status_mapping (db : DB) (now : Int) (orderId : String) :
    ((claimPOST db now orderId).1.success = false →
      (claimPOST db now orderId).1.download_links = none ∧
      (claimPOST db now orderId).1.products = none ∧
      (((claimPOST db now orderId).1.message = "Order ID is required" ∧
          (claimPOST db now orderId).1.status = 400) ∨
       ((claimPOST db now orderId).1.message = "Order not found" ∧
          (claimPOST db now orderId).1.status = 404) ∨
       ((claimPOST db now orderId).1.message = "This order has expired" ∧
          (claimPOST db now orderId).1.status = 400) ∨
       ((claimPOST db now orderId).1.message =
          "This order has already been claimed (one-time use only)" ∧
          (claimPOST db now orderId).1.status = 400) ∨
       ((claimPOST db now orderId).1.message =
          "No products found for this order" ∧
          (claimPOST db now orderId).1.status = 404))) ∧
    ((claimPOST db now orderId).1.success = true →
      (claimPOST db now orderId).1.status = 200 ∧
      ¬ (claimPOST db now orderId).1.download_links = none) ∧
    List.Nodup ["Order ID is required", "Order not found",
      "This order has expired",
      "This order has already been claimed (one-time use only)",
      "No products found for this order"] := by
  refine ⟨?_, ?_, by decide⟩
  · intro h
    rcases hd : claimCheck db now orderId with r | ⟨prods, st, c⟩
    · have hr := claimCheck_reject_spec db now orderId r hd
      simp only [claimPOST, hd, decisionResponse]
      exact ⟨hr.2.2.1, hr.2.1, hr.2.2.2⟩
    · simp [claimPOST, hd, decisionResponse, successResponse] at h
  · intro h
    rcases hd : claimCheck db now orderId with r | ⟨prods, st, c⟩
    · have hr := claimCheck_reject_spec db now orderId r hd
      simp [claimPOST, hd, decisionResponse] at h
      simp [h] at hr
    · simp [claimPOST, hd, decisionResponse, successResponse]

/-- Witness for the amended C6: the missing-products rejection carries
no payload and hits the 404 branch of the mapping. -/
theorem claim_http_status_mapping_witness :
    (claimPOST noProductsDB 0 "N").1.download_links = none ∧
    (claimPOST noProductsDB 0 "N").1.products = none ∧
    (((claimPOST noProductsDB 0 "N").1.message = "Order ID is required" ∧
        (claimPOST noProductsDB 0 "N").1.status = 400) ∨
     ((claimPOST noProductsDB 0 "N").1.message = "Order not found" ∧
        (claimPOST noProductsDB 0 "N").1.status = 404) ∨
     ((claimPOST noProductsDB 0 "N").1.message = "This order has expired" ∧
        (claimPOST noProductsDB 0 "N").1.status = 400) ∨
     ((claimPOST noProductsDB 0 "N").1.message =
        "This order has already been claimed (one-time use only)" ∧
        (claimPOST noProductsDB 0 "N").1.status = 400) ∨
     ((claimPOST noProductsDB 0 "N").1.message =
        "No products found for this order" ∧
        (claimPOST noProductsDB 0 "N").1.status = 404)) :=
  (claim_http_status_mapping noProductsDB 0 "N").1 (by decide)

/-- The state left by the claim route's row update. -/
def claimUpdatedDB (db : DB) (orderId : String) (st : String) (now : Int)
    (c : Nat) : DB :=
  { db with orders := db.orders.map (updateOrderRow orderId st now c) }

/-- The image of one order under the claim route's row update. -/
def claimUpdatedOrder (st : String) (now : Int) (c : Nat) (o : Order) :
    Order :=
  { o with
    claim_status := st
    claim_timestamp := some now
    claim_count := c }

/-- Looking an identifier up after the claim route's row update returns
the updated image of the order the lookup returned before, because the
update never touches `order_id`. -/
theorem findOrder_map_update (db : DB) (orderId st : String) (now : Int)
    (c : Nat) :
    findOrder (claimUpdatedDB db orderId st now c) orderId =
      (findOrder db orderId).map (claimUpdatedOrder st now c) := by
  show (db.orders.map (updateOrderRow orderId st now c)).find?
      (fun o => o.order_id == orderId) = _
  unfold findOrder
  induction db.orders with
  | nil => simp
  | cons a l ih =>
    by_cases hpa : a.order_id = orderId
    · have h1 : ((updateOrderRow orderId st now c a).order_id == orderId)
          = true := by
        simp [updateOrderRow, hpa]
      have h2 : (a.order_id == orderId) = true := by simp [hpa]
      rw [List.map_cons,
        List.find?_cons_of_pos (p := fun (o : Order) => o.order_id == orderId) _ h1,
        List.find?_cons_of_pos (p := fun (o : Order) => o.order_id == orderId) _ h2]
      simp [updateOrderRow, claimUpdatedOrder, hpa]
    · have h1 : ¬ ((updateOrderRow orderId st now c a).order_id == orderId)
          = true := by
        simp [updateOrderRow, hpa]
      have h2 : ¬ (a.order_id == orderId) = true := by simp [hpa]
      rw [List.map_cons,
        List.find?_cons_of_neg (p := fun (o : Order) => o.order_id == orderId) _ h1,
        List.find?_cons_of_neg (p := fun (o : Order) => o.order_id == orderId) _ h2]
      exact ih

/-- One claim against a found, unexpired, multi-use order with
products succeeds, increments the count, and rewrites the row status to
"available". -/
theorem claimPOST_multiuse_step (db : DB) (now : Int) (orderId : String)
    (o : Order) (hne : orderId ≠ "") (hfind : findOrder db orderId = some o)
    (hmulti : o.one_time_use = false) (hexp : isExpired o now = false)
    (hprods : orderProducts db o.id ≠ []) :
    claimPOST db now orderId =
      (successResponse (orderProducts db o.id) (o.claim_count + 1),
       claimUpdatedDB db orderId "available" now (o.claim_count + 1)) := by
  have hcheck : claimCheck db now orderId =
      .accept (orderProducts db o.id) "available" (o.claim_count + 1) := by
    simp [claimCheck, hne, hfind, hexp, hmulti, hprods]
  simp [claimPOST, hcheck, decisionResponse, applyDecision, claimUpdatedDB]

/-- Invariant of repeated claims against a multi-use order: all n calls
succeed with counts continuing from the starting count, and the stored
row ends with the accumulated count and, once at least one claim
happened, status "available" -- never "claimed". -/
theorem claimSeq_multiuse (now : Int) (orderId : String) (hne : orderId ≠ "") :
    ∀ (n : Nat) (db : DB) (o : Order),
      findOrder db orderId = some o →
      o.one_time_use = false →
      isExpired o now = false →
      orderProducts db o.id ≠ [] →
      (claimSeq db now orderId n).1 =
        (List.range n).map (fun k =>
          successResponse (orderProducts db o.id) (o.claim_count + k + 1)) ∧
      ∃ o2, findOrder ((claimSeq db now orderId n).2) orderId = some o2 ∧
        o2.one_time_use = false ∧
        o2.claim_count = o.claim_count + n ∧
        o2.id = o.id ∧
        o2.expiration_date = o.expiration_date ∧
        (n = 0 → o2 = o) ∧
        (n ≠ 0 → o2.claim_status = "available" ∧
          o2.claim_timestamp = some now) := by
  intro n
  induction n with
  | zero =>
    intro db o hfind hmulti _ _
    exact ⟨by simp [claimSeq], o, hfind, hmulti, by simp, rfl, rfl,
      fun _ => rfl, fun h => absurd rfl h⟩
  | succ n ih =>
    intro db o hfind hmulti hexp hprods
    have hstep := claimPOST_multiuse_step db now orderId o hne hfind hmulti
      hexp hprods
    have hfind1 :
        findOrder (claimUpdatedDB db orderId "available" now
          (o.claim_count + 1)) orderId =
        some (claimUpdatedOrder "available" now (o.claim_count + 1) o) := by
      rw [findOrder_map_update, hfind]
      rfl
    have key := ih
      (claimUpdatedDB db orderId "available" now (o.claim_count + 1))
      (claimUpdatedOrder "available" now (o.claim_count + 1) o)
      hfind1 hmulti hexp hprods
    have hstate : (claimSeq db now orderId (n + 1)).2 =
        (claimSeq (claimUpdatedDB db orderId "available" now
          (o.claim_count + 1)) now orderId n).2 := by
      simp only [claimSeq]
      rw [hstep]
    constructor
    · have hresp : (claimSeq db now orderId (n + 1)).1 =
          successResponse (orderProducts db o.id) (o.claim_count + 1) ::
            (claimSeq (claimUpdatedDB db orderId "available" now
              (o.claim_count + 1)) now orderId n).1 := by
        simp only [claimSeq]
        rw [hstep]
      rw [hresp, key.1, List.range_succ_eq_map, List.map_cons, List.map_map]
      congr 1
      refine List.map_congr_left ?_
      intro k _
      simp only [Function.comp]
      congr 1
      simp only [claimUpdatedOrder]
      omega
    · obtain ⟨o2, hf2, hm2, hc2, hid2, he2, hz2, hs2⟩ := key.2
      have hc2x : o2.claim_count = o.claim_count + (n + 1) := by
        simp [claimUpdatedOrder] at hc2
        omega
      refine ⟨o2, by rw [hstate]; exact hf2, hm2, hc2x, hid2, he2,
        fun h => absurd h (Nat.succ_ne_zero n), fun _ => ?_⟩
      by_cases hn : n = 0
      · subst hn
        rw [hz2 rfl]
        exact ⟨rfl, rfl⟩
      · exact hs2 hn

/-- C4: for a multi-use order (not expired, with products), the
one-time-use guard never blocks: each of n sequential claims succeeds
with post-increment counts 1, 2, ..., n, and after every prefix of
claims the stored row's status is "available" -- the order never
transitions to "claimed". -/
theorem multi_use_unlimited (db : DB) (now : Int) (orderId : String)
    (o : Order) (n : Nat) (hne : orderId ≠ "")
    (hfind : findOrder db orderId = some o) (hmulti : o.one_time_use = false)
    (hzero : o.claim_count = 0) (hexp : isExpired o now = false)
    (hprods : orderProducts db o.id ≠ []) :
    (claimSeq db now orderId n).1 =
      (List.range n).map (fun k =>
        successResponse (orderProducts db o.id) (k + 1)) ∧
    ∀ k, 1 ≤ k → k ≤ n → ∃ o2,
      findOrder ((claimSeq db now orderId k).2) orderId = some o2 ∧
      o2.claim_status = "available" ∧ o2.claim_count = k := by
  constructor
  · have h := (claimSeq_multiuse now orderId hne n db o hfind hmulti hexp
      hprods).1
    simpa [hzero] using h
  · intro k hk1 _
    obtain ⟨o2, hf2, _, hc2, _, _, _, hs2⟩ :=
      (claimSeq_multiuse now orderId hne k db o hfind hmulti hexp hprods).2
    refine ⟨o2, hf2, (hs2 (by omega)).1, by rw [hc2, hzero, Nat.zero_add]⟩

/-- Concrete state for the multi-use witness: an unexpired multi-use
order with one product and claim count 0. -/
def multiDB : DB :=
  ⟨[⟨1, "M", "available", none, 0, none, false, none⟩],
   [⟨10, "Widget", "d", "https://x/y", "img"⟩], [⟨1, 10⟩], []⟩

/-- Witness for C4: three sequential claims of the multi-use order all
succeed with counts 1, 2, 3 and leave the stored status "available". -/
theorem multi_use_unlimited_witness :
    (claimSeq multiDB 0 "M" 3).1 =
      (List.range 3).map (fun k =>
        successResponse (orderProducts multiDB 1) (k + 1)) ∧
    ∃ o2, findOrder ((claimSeq multiDB 0 "M" 3).2) "M" = some o2 ∧
      o2.claim_status = "available" ∧ o2.claim_count = 3 :=
  ⟨(multi_use_unlimited multiDB 0 "M"
      ⟨1, "M", "available", none, 0, none, false, none⟩ 3 (by decide)
      (by decide) (by decide) (by decide) (by decide) (by decide)).1,
   (multi_use_unlimited multiDB 0 "M"
      ⟨1, "M", "available", none, 0, none, false, none⟩ 3 (by decide)
      (by decide) (by decide) (by decide) (by decide) (by decide)).2
     3 (by decide) (by decide)⟩

/-- In a list whose members are pairwise incompatible under a Boolean
predicate, any member satisfying the predicate is the one `find?`
returns. -/
theorem find?_unique_get {α : Type} (p : α → Bool) (l : List α) (a : α)
    (hpw : l.Pairwise (fun x y => p x = true → p y = true → False))
    (hfind : l.find? p = some a) (i : Fin l.length)
    (hp : p (l.get i) = true) : l.get i = a := by
  have hpa : p a = true := List.find?_some hfind
  obtain ⟨j, hj⟩ := List.mem_iff_get.mp (List.mem_of_find?_eq_some hfind)
  have hpair := List.pairwise_iff_get.mp hpw
  rcases Nat.lt_trichotomy i.1 j.1 with hlt | heq | hgt
  · exact (hpair i j hlt hp (by rw [hj]; exact hpa)).elim
  · rw [Fin.ext heq, hj]
  · exact (hpair j i hgt (by rw [hj]; exact hpa) hp).elim

/-- Under the primary-key constraint (pairwise distinct internal ids),
any row carrying the edited id is the row the `PUT` route fetched. -/
theorem row_eq_of_id_match (db : DB) (b : OrderUpdateBody) (existing : Order)
    (huid : db.orders.Pairwise (fun x y => x.id ≠ y.id))
    (hfind : db.orders.find? (fun o => o.id == b.id) = some existing)
    (i : Fin db.orders.length) (hid : (db.orders.get i).id = b.id) :
    db.orders.get i = existing := by
  have hpw : db.orders.Pairwise (fun x y =>
      (x.id == b.id) = true → (y.id == b.id) = true → False) := by
    refine List.Pairwise.imp ?_ huid
    intro x y hxy px py
    simp only [beq_iff_eq] at px py
    exact hxy (px.trans py.symm)
  exact find?_unique_get _ _ _ hpw hfind i (by simpa using hid)

/-- Under the `UNIQUE(order_id)` constraint (pairwise distinct
identifiers), any row carrying the claimed identifier is the row the
claim route fetched. -/
theorem row_eq_of_order_id_match (db : DB) (orderId : String) (o : Order)
    (hoid : db.orders.Pairwise (fun x y => x.order_id ≠ y.order_id))
    (hfind : findOrder db orderId = some o)
    (i : Fin db.orders.length)
    (hid : (db.orders.get i).order_id = orderId) :
    db.orders.get i = o := by
  have hpw : db.orders.Pairwise (fun x y =>
      (x.order_id == orderId) = true → (y.order_id == orderId) = true →
        False) := by
    refine List.Pairwise.imp ?_ hoid
    intro x y hxy px py
    simp only [beq_iff_eq] at px py
    exact hxy (px.trans py.symm)
  exact find?_unique_get _ _ _ hpw hfind i (by simpa using hid)

/-- An admin edit either leaves the store untouched (any rejection or
the unique-violation 500) or rewrites the order rows through the
`UPDATE`'s per-row function for the fetched row. -/
theorem putOrder_state_cases (db : DB) (now : Int) (b : OrderUpdateBody) :
    (putOrder db now b).2 = db ∨
    ∃ existing, db.orders.find? (fun o => o.id == b.id) = some existing ∧
      (putOrder db now b).2.orders = db.orders.map (putUpdateRow b
        (expirationOf now b.expiration_days) (b.one_time_use.getD true)
        (putNewCount b existing)) := by
  unfold putOrder
  split
  · exact Or.inl rfl
  · split
    · exact Or.inl rfl
    · rename_i existing hfindid
      split
      · exact Or.inl rfl
      · split
        · exact Or.inl rfl
        · exact Or.inr ⟨existing, hfindid, rfl⟩

/-- A successful admin edit comes from a fetched row, returns its
updated image, and stores exactly the `UPDATE`'s per-row rewrite. -/
theorem putOrder_updated_spec (db : DB) (now : Int) (b : OrderUpdateBody)
    (o2 : Order) (h : (putOrder db now b).1 = .updated o2) :
    ∃ existing, db.orders.find? (fun o => o.id == b.id) = some existing ∧
      o2 = putUpdatedOrder now b existing ∧
      (putOrder db now b).2.orders = db.orders.map (putUpdateRow b
        (expirationOf now b.expiration_days) (b.one_time_use.getD true)
        (putNewCount b existing)) := by
  unfold putOrder at h
  split at h
  · cases h
  · rename_i hval
    split at h
    · cases h
    · rename_i existing hfindid
      split at h
      · cases h
      · rename_i hmiss
        split at h
        · cases h
        · rename_i hcol
          cases h
          refine ⟨existing, hfindid, rfl, ?_⟩
          simp only [List.isEmpty_iff] at hval
          simp [putOrder, hval, hfindid, hmiss, hcol]

/-- C10: a successful admin edit always stores the freshly computed
expiration -- now plus the supplied days when `expiration_days` is a
truthy number, `null` otherwise -- so an edit whose body omits
`expiration_days` (or sends the falsy 0) nulls the stored deadline
regardless of its previous value. -/
theorem put_expiration_overwrite (db : DB) (now : Int) (b : OrderUpdateBody)
    (o2 : Order) (h : (putOrder db now b).1 = .updated o2) :
    o2.expiration_date = expirationOf now b.expiration_days ∧
    ((b.expiration_days = none ∨ b.expiration_days = some 0) →
      o2.expiration_date = none) ∧
    ∀ r ∈ (putOrder db now b).2.orders, r.id = b.id →
      r.expiration_date = expirationOf now b.expiration_days := by
  obtain ⟨existing, hfindid, ho2, horders⟩ := putOrder_updated_spec db now b o2 h
  refine ⟨by rw [ho2]; rfl, ?_, ?_⟩
  · intro hc
    rw [ho2]
    rcases hc with hc | hc <;> simp [putUpdatedOrder, expirationOf, hc]
  · intro r hr hid
    rw [horders] at hr
    obtain ⟨row, _, hfr⟩ := List.mem_map.mp hr
    by_cases hmatch : row.id = b.id
    · rw [← hfr]
      simp [putUpdateRow, hmatch]
    · exfalso
      rw [← hfr] at hid
      simp [putUpdateRow, hmatch] at hid

/-- Concrete state for the expiration-overwrite witness: an order with
a stored deadline, edited without `expiration_days`. -/
def expireEditDB : DB :=
  ⟨[⟨1, "A", "available", none, 2, some 100, true, none⟩],
   [⟨10, "Widget", "d", "https://x/y", "img"⟩], [⟨1, 10⟩], []⟩

/-- The edit body omitting `expiration_days`. -/
def expireEditBody : OrderUpdateBody := ⟨1, "A", [10], none, some true⟩

/-- Witness for C10: editing the order without re-supplying
`expiration_days` nulls its stored deadline. -/
theorem put_expiration_overwrite_witness :
    (⟨1, "A", "available", none, 2, none, true, none⟩ : Order).expiration_date
      = none :=
  (put_expiration_overwrite expireEditDB 0 expireEditBody
    ⟨1, "A", "available", none, 2, none, true, none⟩ (by decide)).2.1
    (Or.inl rfl)

/-- Concrete state for the claim-count counterexample: a multi-use
order already claimed 5 times. -/
def flipDB : DB :=
  ⟨[⟨1, "A", "available", none, 5, some 100, false, none⟩],
   [⟨10, "Widget", "d", "https://x/y", "img"⟩], [⟨1, 10⟩], []⟩

/-- The edit body omitting `one_time_use`. -/
def flipBody : OrderUpdateBody := ⟨1, "A", [10], none, none⟩

/-- Counterexample to C7 as stated: an edit that omits `one_time_use`
flips the stored flag from false to true (through `?? true`) yet
preserves `claim_count` = 5 instead of resetting it to 0, because the
reset condition tests the raw request value, not the stored result. -/
theorem put_flip_without_reset :
    flipDB.orders.map (fun o => (o.one_time_use, o.claim_count))
      = [(false, 5)] ∧
    (putOrder flipDB 0 flipBody).2.orders.map
        (fun o => (o.one_time_use, o.claim_count))
      = [(true, 5)] ∧
    (5 : Nat) ≠ 0 := by
  decide

/-- C7 (amended): under the orders table's uniqueness constraints, no
operation decreases a row's `claim_count`, except that an admin edit
resets the edited row's count to 0 exactly when the stored flag is
false and the request explicitly supplies `one_time_use: true` (an edit
omitting `one_time_use` stores the flag as true but preserves the
count); a successful claim increments the claimed row's count by
exactly one, and all other rows are untouched by either operation. -/
theorem claim_count_monotonic (db : DB) (now : Int) (b : OrderUpdateBody)
    (orderId : String)
    (huid : db.orders.Pairwise (fun x y => x.id ≠ y.id))
    (hoid : db.orders.Pairwise (fun x y => x.order_id ≠ y.order_id)) :
    ((putOrder db now b).2.orders.length = db.orders.length ∧
      (∀ (i : Nat) (row row2 : Order), db.orders[i]? = some row →
        (putOrder db now b).2.orders[i]? = some row2 →
        row2.claim_count = row.claim_count ∨
          (row2.claim_count = 0 ∧ row.one_time_use = false ∧
            b.one_time_use = some true ∧ row.id = b.id)) ∧
      (∀ o2, (putOrder db now b).1 = .updated o2 →
        ∀ (i : Nat) (row row2 : Order), db.orders[i]? = some row →
          (putOrder db now b).2.orders[i]? = some row2 →
          (row.id ≠ b.id → row2 = row) ∧
          (row.id = b.id →
            row2.one_time_use = b.one_time_use.getD true ∧
            (row.one_time_use = false ∧ b.one_time_use = some true →
              row2.claim_count = 0) ∧
            (¬ (row.one_time_use = false ∧ b.one_time_use = some true) →
              row2.claim_count = row.claim_count)))) ∧
    ((claimPOST db now orderId).2.orders.length = db.orders.length ∧
      (∀ (i : Nat) (row row2 : Order), db.orders[i]? = some row →
        (claimPOST db now orderId).2.orders[i]? = some row2 →
        row2.claim_count = row.claim_count ∨
          (row2.claim_count = row.claim_count + 1 ∧
            (claimPOST db now orderId).1.success = true ∧
            row.order_id = orderId)) ∧
      ((claimPOST db now orderId).1.success = true →
        ∀ (i : Nat) (row row2 : Order), db.orders[i]? = some row →
          (claimPOST db now orderId).2.orders[i]? = some row2 →
          (row.order_id ≠ orderId → row2 = row) ∧
          (row.order_id = orderId →
            row2.claim_count = row.claim_count + 1))) := by
  constructor
  · refine ⟨?_, ?_, ?_⟩
    · rcases putOrder_state_cases db now b with hdb | ⟨existing, _, horders⟩
      · rw [hdb]
      · rw [horders, List.length_map]
    · intro i row row2 h1 h2
      rcases putOrder_state_cases db now b with hdb | ⟨existing, hfindid, horders⟩
      · rw [hdb, h1] at h2
        injection h2 with h2
        subst h2
        exact Or.inl rfl
      · rw [horders, List.getElem?_map, h1] at h2
        injection h2 with h2
        subst h2
        by_cases hid : row.id = b.id
        · obtain ⟨hlt, hget⟩ := List.getElem?_eq_some.mp h1
          have hrow : row = existing := by
            have hu := row_eq_of_id_match db b existing huid hfindid ⟨i, hlt⟩
              (by rw [List.get_eq_getElem, hget]; exact hid)
            rw [List.get_eq_getElem, hget] at hu
            exact hu
          by_cases hreset :
              existing.one_time_use = false ∧ b.one_time_use = some true
          · right
            refine ⟨?_, ?_, hreset.2, hid⟩
            · simp [putUpdateRow, hid, putNewCount, hreset]
            · rw [hrow]
              exact hreset.1
          · left
            have hid2 : existing.id = b.id := by rw [← hrow]; exact hid
            simp [putUpdateRow, hid, hid2, putNewCount, hreset, hrow]
        · left
          simp [putUpdateRow, hid]
    · intro o2 ho2 i row row2 h1 h2
      obtain ⟨existing, hfindid, _, horders⟩ :=
        putOrder_updated_spec db now b o2 ho2
      rw [horders, List.getElem?_map, h1] at h2
      injection h2 with h2
      subst h2
      constructor
      · intro hneq
        simp [putUpdateRow, hneq]
      · intro hid
        obtain ⟨hlt, hget⟩ := List.getElem?_eq_some.mp h1
        have hrow : row = existing := by
          have hu := row_eq_of_id_match db b existing huid hfindid ⟨i, hlt⟩
            (by rw [List.get_eq_getElem, hget]; exact hid)
          rw [List.get_eq_getElem, hget] at hu
          exact hu
        refine ⟨by simp [putUpdateRow, hid], ?_, ?_⟩
        · intro hreset
          have hreset2 :
              existing.one_time_use = false ∧ b.one_time_use = some true := by
            rw [← hrow]
            exact hreset
          simp [putUpdateRow, hid, putNewCount, hreset2]
        · intro hreset
          have hreset2 :
              ¬ (existing.one_time_use = false ∧
                b.one_time_use = some true) := by
            rw [← hrow]
            exact hreset
          have hid2 : existing.id = b.id := by rw [← hrow]; exact hid
          simp [putUpdateRow, hid, hid2, putNewCount, hreset2, hrow]
  · refine ⟨?_, ?_, ?_⟩
    · rcases hd : claimCheck db now orderId with r | ⟨prods, st, c⟩
      · simp [claimPOST, hd, applyDecision]
      · simp [claimPOST, hd, applyDecision]
    · intro i row row2 h1 h2
      rcases hd : claimCheck db now orderId with r | ⟨prods, st, c⟩
      · simp only [claimPOST, hd, applyDecision] at h2
        rw [h1] at h2
        injection h2 with h2
        subst h2
        exact Or.inl rfl
      · obtain ⟨o, hfind, hprods, hlen, hst, hc⟩ :=
          claimCheck_accept_spec db now orderId prods st c hd
        simp only [claimPOST, hd, applyDecision] at h2
        rw [List.getElem?_map, h1] at h2
        injection h2 with h2
        subst h2
        by_cases hido : row.order_id = orderId
        · right
          obtain ⟨hlt, hget⟩ := List.getElem?_eq_some.mp h1
          have hrow : row = o := by
            have hu := row_eq_of_order_id_match db orderId o hoid hfind
              ⟨i, hlt⟩ (by rw [List.get_eq_getElem, hget]; exact hido)
            rw [List.get_eq_getElem, hget] at hu
            exact hu
          have hido2 : o.order_id = orderId := by rw [← hrow]; exact hido
          refine ⟨?_, ?_, hido⟩
          · simp [updateOrderRow, hido, hido2, hc, hrow]
          · simp [claimPOST, hd, decisionResponse, successResponse]
        · left
          simp [updateOrderRow, hido]
    · intro hsucc i row row2 h1 h2
      rcases hd : claimCheck db now orderId with r | ⟨prods, st, c⟩
      · have hr := claimCheck_reject_spec db now orderId r hd
        simp [claimPOST, hd, decisionResponse] at hsucc
        simp [hsucc] at hr
      · obtain ⟨o, hfind, hprods, hlen, hst, hc⟩ :=
          claimCheck_accept_spec db now orderId prods st c hd
        simp only [claimPOST, hd, applyDecision] at h2
        rw [List.getElem?_map, h1] at h2
        injection h2 with h2
        subst h2
        constructor
        · intro hneq
          simp [updateOrderRow, hneq]
        · intro hido
          obtain ⟨hlt, hget⟩ := List.getElem?_eq_some.mp h1
          have hrow : row = o := by
            have hu := row_eq_of_order_id_match db orderId o hoid hfind
              ⟨i, hlt⟩ (by rw [List.get_eq_getElem, hget]; exact hido)
            rw [List.get_eq_getElem, hget] at hu
            exact hu
          have hido2 : o.order_id = orderId := by rw [← hrow]; exact hido
          simp [updateOrderRow, hido, hido2, hc, hrow]

/-- Concrete state for the claim-count witness: a multi-use order
already claimed 5 times. -/
def countDB : DB :=
  ⟨[⟨1, "A", "available", none, 5, none, false, none⟩],
   [⟨10, "Widget", "d", "https://x/y", "img"⟩], [⟨1, 10⟩], []⟩

/-- The witness edit body, explicitly supplying `one_time_use: true`. -/
def countBody : OrderUpdateBody := ⟨1, "A", [10], none, some true⟩

/-- Witness for the amended C7: the explicit false-to-true flip of the
multi-use order really resets its stored claim count to 0. -/
theorem claim_count_monotonic_witness :
    (⟨1, "A", "available", none, 0, none, true, none⟩ : Order).claim_count
      = 0 :=
  (((claim_count_monotonic countDB 0 countBody "A"
      (by simp [countDB, List.pairwise_cons])
      (by simp [countDB, List.pairwise_cons])).1.2.2
    ⟨1, "A", "available", none, 0, none, true, none⟩ (by decide)
    0 ⟨1, "A", "available", none, 5, none, false, none⟩
    ⟨1, "A", "available", none, 0, none, true, none⟩
    (by decide) (by decide)).2 (by decide)).2.1 (by decide)

/-- Concrete state for the identifier-mutation counterexample. -/
def renameDB : DB :=
  ⟨[⟨1, "A", "available", none, 0, none, true, none⟩],
   [⟨10, "Widget", "d", "https://x/y", "img"⟩], [⟨1, 10⟩], []⟩

/-- The edit body carrying a different `order_id`. -/
def renameBody : OrderUpdateBody := ⟨1, "B", [10], none, none⟩

/-- Counterexample to C9 as stated: an admin edit replaces the stored
`order_id` "A" with the supplied "B", so the identifier is not
immutable after creation. -/
theorem put_changes_order_identifier :
    renameDB.orders.map Order.order_id = ["A"] ∧
    (putOrder renameDB 0 renameBody).2.orders.map Order.order_id = ["B"] := by
  decide

/-- C9 (amended): `orderIdentifier` uniqueness is enforced at creation
(a duplicate identifier is rejected with no mutation) and the claim
route never alters any order's identifier; but the identifier is not
immutable: a successful admin edit stores the request's `order_id` on
the edited row. -/
theorem order_identifier_amended (db : DB) (now : Int)
    (b : OrderCreateBody) (b2 : OrderUpdateBody) (orderId : String)
    (o : Order) (o2 : Order) :
    (b.order_id ≠ "" → b.product_ids ≠ [] → o ∈ db.orders →
      o.order_id = b.order_id →
      createOrder db now b = (.badRequest "Order ID already exists", db)) ∧
    ((claimPOST db now orderId).2.orders.map Order.order_id =
      db.orders.map Order.order_id) ∧
    ((putOrder db now b2).1 = .updated o2 → o2.order_id = b2.order_id) := by
  refine ⟨?_, ?_, ?_⟩
  · intro hne hpids hmem horder
    have hdup :
        (db.orders.find? (fun x => x.order_id == b.order_id)).isSome
          = true :=
      List.find?_isSome.mpr ⟨o, hmem, by simp [horder]⟩
    have hval : ¬ (b.order_id = "" ∨ b.product_ids.isEmpty = true) := by
      simp only [List.isEmpty_iff]
      simp
      exact ⟨hne, hpids⟩
    simp [createOrder, hval, hdup]
    exact ⟨hne, hpids⟩
  · rcases hd : claimCheck db now orderId with r | ⟨prods, st, c⟩
    · simp [claimPOST, hd, applyDecision]
    · simp only [claimPOST, hd, applyDecision]
      rw [List.map_map]
      refine List.map_congr_left ?_
      intro a _
      simp only [Function.comp]
      unfold updateOrderRow
      split <;> rfl
  · intro h
    obtain ⟨existing, _, ho2, _⟩ := putOrder_updated_spec db now b2 o2 h
    rw [ho2]
    rfl

/-- Concrete state for the duplicate-identifier witness. -/
def dupDB : DB :=
  ⟨[⟨1, "A", "available", none, 0, none, true, none⟩],
   [⟨10, "Widget", "d", "https://x/y", "img"⟩], [⟨1, 10⟩], []⟩

/-- The creation body re-using the taken identifier. -/
def dupBody : OrderCreateBody := ⟨"A", [10], none, none, none⟩

/-- Witness for the amended C9: creating a second order under the taken
identifier "A" is rejected and mutates nothing. -/
theorem order_identifier_amended_witness :
    createOrder dupDB 0 dupBody = (.badRequest "Order ID already exists", dupDB) :=
  (order_identifier_amended dupDB 0 dupBody ⟨1, "A", [10], none, none⟩ "A"
      ⟨1, "A", "available", none, 0, none, true, none⟩
      ⟨1, "A", "available", none, 0, none, true, none⟩).1
    (by decide) (by decide) (by decide) (by decide)

/-- A settings-only update leaves the order lookup unchanged. -/
theorem findOrder_settings_update (db : DB) (s : List Setting)
    (orderId : String) :
    findOrder { db with settings := s } orderId = findOrder db orderId := rfl

/-- A settings-only update leaves the orders table unchanged. -/
theorem orders_settings_update (db : DB) (s : List Setting) :
    ({ db with settings := s } : DB).orders = db.orders := rfl

/-- A settings-only update leaves the product-existence scan unchanged. -/
theorem firstMissingProduct_settings_update (db : DB) (s : List Setting)
    (pids : List Nat) :
    firstMissingProduct { db with settings := s } pids
      = firstMissingProduct db pids := rfl

/-- A settings-only update leaves the inserted order row unchanged. -/
theorem newOrderOf_settings_update (db : DB) (s : List Setting) (now : Int)
    (b : OrderCreateBody) :
    newOrderOf { db with settings := s } now b = newOrderOf db now b := rfl

/-- A settings-only update leaves the claim route's check unchanged:
redemption never consults the settings table. -/
theorem claimCheck_settings_update (db : DB) (s : List Setting) (now : Int)
    (orderId : String) :
    claimCheck { db with settings := s } now orderId
      = claimCheck db now orderId := rfl

/-- The claim route's response is independent of the settings table. -/
theorem claimPOST_settings_ind (db : DB) (s : List Setting) (now : Int)
    (orderId : String) :
    (claimPOST { db with settings := s } now orderId).1 =
      (claimPOST db now orderId).1 :=
  congrArg decisionResponse (claimCheck_settings_update db s now orderId)

/-- The creation outcome is independent of the settings table. -/
theorem createOrder_settings_ind (db : DB) (s : List Setting) (now : Int)
    (b : OrderCreateBody) :
    (createOrder { db with settings := s } now b).1 =
      (createOrder db now b).1 := by
  by_cases h1 : b.order_id = "" ∨ b.product_ids = []
  · simp [createOrder, h1]
  · by_cases h2 : ∃ x ∈ db.orders, x.order_id = b.order_id
    · simp [createOrder, h1, h2, orders_settings_update]
    · rcases hm : firstMissingProduct db b.product_ids with _ | pid
      · simp [createOrder, h1, h2, hm, orders_settings_update,
          firstMissingProduct_settings_update, newOrderOf_settings_update]
      · simp [createOrder, h1, h2, hm, orders_settings_update,
          firstMissingProduct_settings_update]

/-- A created order is exactly the route's insert row. -/
theorem createOrder_created_spec (db : DB) (now : Int) (b : OrderCreateBody)
    (o : Order) (h : (createOrder db now b).1 = .created o) :
    o = newOrderOf db now b := by
  unfold createOrder at h
  split at h
  · cases h
  · split at h
    · cases h
    · split at h
      · cases h
      · injection h with h2
        exact h2.symm

/-- Concrete state for the policy-defaults counterexample: stored
Policy Settings with a 7-day default expiration and default
one-time-use false. -/
def settingsDB : DB :=
  ⟨[], [⟨10, "Widget", "d", "https://x/y", "img"⟩], [],
   [⟨"default_expiration_days", "7"⟩, ⟨"one_time_use_enabled", "false"⟩]⟩

/-- The creation body omitting both policy fields. -/
def defaultsBody : OrderCreateBody := ⟨"A", [10], none, none, none⟩

/-- Counterexample to C8 as stated: with stored defaults of 7 days and
one-time-use false, creating an order that omits both fields stores no
expiration (not creation-time + 7 days) and `one_time_use` = true (not
the stored false): the endpoint never reads the settings table. -/
theorem create_ignores_settings :
    (createOrder settingsDB 0 defaultsBody).1 =
      .created ⟨1, "A", "available", none, 0, none, true, none⟩ ∧
    ¬ (createOrder settingsDB 0 defaultsBody).1 =
      .created ⟨1, "A", "available", none, 0, some (addDays 0 7), false,
        none⟩ := by
  decide

/-- C8 (amended): the creation endpoint itself never reads Policy
Settings: omitting `expiration_days` yields a never-expiring order (not
creation-time plus the stored default window) and omitting
`one_time_use` stores the hardcoded `?? true` default (not the stored
flag); the creation outcome and the claim route's response are both
independent of the settings table, so later Policy Settings changes
never affect existing orders. -/
theorem create_policy_defaults (db : DB) (now : Int) (b : OrderCreateBody)
    (o : Order) (h : (createOrder db now b).1 = .created o) :
    o.expiration_date = expirationOf now b.expiration_days ∧
    (b.expiration_days = none → o.expiration_date = none) ∧
    o.one_time_use = b.one_time_use.getD true ∧
    o.claim_count = 0 ∧ o.claim_status = "available" ∧
    (∀ s, (createOrder { db with settings := s } now b).1 =
      (createOrder db now b).1) ∧
    (∀ s orderId, (claimPOST { db with settings := s } now orderId).1 =
      (claimPOST db now orderId).1) := by
  have ho := createOrder_created_spec db now b o h
  refine ⟨by rw [ho]; rfl, ?_, by rw [ho]; rfl, by rw [ho]; rfl,
    by rw [ho]; rfl, fun s => createOrder_settings_ind db s now b,
    fun s orderId => claimPOST_settings_ind db s now orderId⟩
  intro hc
  rw [ho]
  simp [newOrderOf, expirationOf, hc]

/-- Witness for the amended C8: the order created with both policy
fields omitted has no expiration. -/
theorem create_policy_defaults_witness :
    (⟨1, "A", "available", none, 0, none, true, none⟩ : Order).expiration_date
      = none :=
  (create_policy_defaults settingsDB 0 defaultsBody
    ⟨1, "A", "available", none, 0, none, true, none⟩ (by decide)).2.1 rfl

end SelfClaim
